import Mathlib

/-!
Shallow embedding of `trinity/extensibility/plugin.py` (the plugin framework of
the repository): the `PluginContext`, the `BasePlugin` lifecycle
(`set_context` / `event_bus` / `boot` / `start`), the stop disciplines
(`BaseSyncStopPlugin.stop`, `BaseAsyncStopPlugin.stop`) and the isolated-process
variant (`BaseIsolatedPlugin.boot` / `_prepare_start` / `stop`).

Side effects (bus broadcasts, bus connection management, process spawning,
signalling, logging) are recorded as an explicit trace of `Effect`s; Python
exceptions are modelled with `Except PyError`.  Bus endpoints, log queues,
parsed arguments, configs and process handles are opaque to this file and are
modelled as `Nat` identifiers.
-/

/-- Events broadcast on the bus (`trinity.events.ShutdownRequest`,
`trinity.extensibility.events.PluginStartedEvent`; the latter carries the
plugin's identity, `type(self)` in the source, modelled as a `String` tag). -/
inductive Event where
  | ShutdownRequest : Event
  | PluginStartedEvent (pluginType : String) : Event
deriving DecidableEq, Repr

/-- Observable side effects, in program order. `startCall` marks the moment a
plugin's `start()` entry point is invoked. -/
inductive Effect where
  | broadcast (bus : Nat) (e : Event) (filter_endpoint : Option String) : Effect
  | connectNoWait (bus : Nat) : Effect
  | busStop (bus : Nat) : Effect
  | startCall : Effect
  | spawnProcess : Effect
  | waitForProcess : Effect
  | setupQueueLogging (log_queue : Nat) (level : Nat) : Effect
  | sigint : Effect
  | waitGracePeriod : Effect
  | sigterm : Effect
  | logInfo (msg : String) : Effect
  | logError (msg : String) : Effect
deriving DecidableEq, Repr

/-- Python exceptions that the embedded code can raise. -/
inductive PyError where
  | EventBusNotReady (msg : String) : PyError
  | KeyError (key : String) : PyError
  | AttributeErrorOnNone : PyError
  | TypeErrorNoneNotSubscriptable : PyError
deriving DecidableEq, Repr

/-- `trinity.constants.MAIN_EVENTBUS_ENDPOINT`: the logical name of the main
host endpoint on the bus (its concrete value is opaque to plugin.py). -/
def MAIN_EVENTBUS_ENDPOINT : String := "main"

/-- Python's `logging.INFO` severity level. -/
def logging_INFO : Nat := 20

/-- Python `dict` lookup on the boot-kwargs mapping, modelled as an
association list: `dictGet kw k` is `kw.get(k)`. -/
def dictGet (kw : List (String × Nat)) (k : String) : Option Nat :=
  (kw.find? (fun kv => kv.1 == k)).map (fun kv => kv.2)

/-- `PluginContext.__init__(endpoint)`: stores the bus handle and sets
`boot_kwargs`, `args` and `trinity_config` to `None`. -/
structure PluginContext where
  event_bus : Nat
  boot_kwargs : Option (List (String × Nat)) := none
  args : Option Nat := none
  trinity_config : Option Nat := none
deriving DecidableEq, Repr

/-- `PluginContext.__init__`: a fresh context holding only the bus handle. -/
def PluginContext.init (endpoint : Nat) : PluginContext :=
  { event_bus := endpoint }

/-- `PluginContext.shutdown_host`: broadcasts a `ShutdownRequest` with a
`BroadcastConfig(filter_endpoint=MAIN_EVENTBUS_ENDPOINT)`.  The method assigns
no attribute, so the state it returns is the state it was given. -/
def PluginContext.shutdown_host (c : PluginContext) : PluginContext × List Effect :=
  (c, [Effect.broadcast c.event_bus Event.ShutdownRequest (some MAIN_EVENTBUS_ENDPOINT)])

/-- `BasePlugin`: class attributes `context = None`, `running = False`. -/
structure BasePlugin where
  context : Option PluginContext := none
  running : Bool := false
deriving DecidableEq, Repr

/-- `BasePlugin.event_bus` property: raises `EventBusNotReady` while
`self.context is None`, otherwise returns `self.context.event_bus`. -/
def BasePlugin.event_bus (p : BasePlugin) : Except PyError Nat :=
  match p.context with
  | none => Except.error (PyError.EventBusNotReady
      "Tried accessing event_bus before ready was called")
  | some c => Except.ok c.event_bus

/-- `BasePlugin.set_context(context)`: `self.context = context`. -/
def BasePlugin.set_context (p : BasePlugin) (c : PluginContext) : BasePlugin :=
  { p with context := some c }

/-- `BasePlugin.start`: the body is `pass`; it neither changes state nor
performs effects (the invocation itself is recorded by the caller). -/
def BasePlugin.start (p : BasePlugin) : BasePlugin × List Effect :=
  (p, [])

/-- `BasePlugin.boot`: sets `self.running = True`, calls `self.start()`, then
broadcasts `PluginStartedEvent(type(self))` via the `event_bus` property (which
raises `EventBusNotReady` if no context was injected) and logs the start.
`pluginType` stands for `type(self)` and `nm` for `self.name`. -/
def BasePlugin.boot (p : BasePlugin) (pluginType nm : String) :
    BasePlugin × List Effect × Option PyError :=
  let p1 : BasePlugin := { p with running := true }
  let (p2, startBody) := p1.start
  let tr1 := Effect.startCall :: startBody
  match p2.event_bus with
  | Except.error e => (p2, tr1, some e)
  | Except.ok bus =>
      (p2, tr1 ++ [Effect.broadcast bus (Event.PluginStartedEvent pluginType) none,
        Effect.logInfo ("Plugin started: " ++ nm)], none)

/-- `BaseSyncStopPlugin.stop`: the body is `pass`. -/
def BaseSyncStopPlugin.stop (p : BasePlugin) : BasePlugin × List Effect :=
  (p, [])

/-- `BaseAsyncStopPlugin.stop`: the body is `pass` (an async no-op; awaiting
it yields no state change and no effect). -/
def BaseAsyncStopPlugin.stop (p : BasePlugin) : BasePlugin × List Effect :=
  (p, [])

/-- Modelled from the spec: `kill_process_gracefully` lives in
`trinity/utils/ipc.py`, which is not among the sources; the spec describes it
as "send an interrupt signal; wait a bounded grace period; if the process has
not exited, send a forced termination signal", with failure to exit gracefully
"logged as a fault but never raises to the caller".  `exitsWithinGrace` encodes
whether the process exits during the grace period. -/
def kill_process_gracefully (exitsWithinGrace : Bool) : List Effect :=
  if exitsWithinGrace then
    [Effect.sigint, Effect.waitGracePeriod,
      Effect.logInfo "process exited during grace period"]
  else
    [Effect.sigint, Effect.waitGracePeriod, Effect.sigterm,
      Effect.logError "process did not exit gracefully; forced termination"]

/-- `BaseIsolatedPlugin`: a `BaseSyncStopPlugin` with a class attribute
`_process = None` holding the spawned process handle. -/
structure BaseIsolatedPlugin where
  toBasePlugin : BasePlugin := {}
  _process : Option Nat := none
deriving DecidableEq, Repr

/-- `BaseIsolatedPlugin.boot`: sets `self.running = True`, creates and starts a
new process targeting `self._prepare_start` (`newPid` models the spawned
process handle) and logs the start.  It does not wait on the process and does
not run the entry point itself. -/
def BaseIsolatedPlugin.boot (p : BaseIsolatedPlugin) (nm : String) (newPid : Nat) :
    BaseIsolatedPlugin × List Effect :=
  ({ toBasePlugin := { p.toBasePlugin with running := true }, _process := some newPid },
    [Effect.spawnProcess, Effect.logInfo ("Plugin started: " ++ nm)])

/-- `BaseIsolatedPlugin._prepare_start` (the spawned process's entry point):
reads `self.context.boot_kwargs['log_queue']` (a `KeyError` if absent; an
`AttributeError` if `context` is `None`, a `TypeError` if `boot_kwargs` is
`None`), reads `boot_kwargs.get('log_level', logging.INFO)`, configures queue
logging, connects the bus without waiting, broadcasts
`PluginStartedEvent(type(self))` and finally calls `self.start()`. -/
def BaseIsolatedPlugin._prepare_start (p : BaseIsolatedPlugin) (pluginType : String) :
    Except PyError (List Effect) :=
  match p.toBasePlugin.context with
  | none => Except.error PyError.AttributeErrorOnNone
  | some c =>
    match c.boot_kwargs with
    | none => Except.error PyError.TypeErrorNoneNotSubscriptable
    | some kw =>
      match dictGet kw "log_queue" with
      | none => Except.error (PyError.KeyError "log_queue")
      | some log_queue =>
        let level := (dictGet kw "log_level").getD logging_INFO
        match p.toBasePlugin.event_bus with
        | Except.error e => Except.error e
        | Except.ok bus =>
          Except.ok [Effect.setupQueueLogging log_queue level,
            Effect.connectNoWait bus,
            Effect.broadcast bus (Event.PluginStartedEvent pluginType) none,
            Effect.startCall]

/-- `BaseIsolatedPlugin.stop`: calls `self.context.event_bus.stop()` (a direct
attribute access: `AttributeError` if `context` is `None`), then
`kill_process_gracefully(self._process, self.logger)`.  No attribute is
assigned, so the returned state is the given one. -/
def BaseIsolatedPlugin.stop (p : BaseIsolatedPlugin) (exitsWithinGrace : Bool) :
    Except PyError (BaseIsolatedPlugin × List Effect) :=
  match p.toBasePlugin.context with
  | none => Except.error PyError.AttributeErrorOnNone
  | some c =>
      Except.ok (p, Effect.busStop c.event_bus :: kill_process_gracefully exitsWithinGrace)

/-- Recognises a `PluginStartedEvent` broadcast (any identity). -/
def isStartedBroadcast : Effect → Bool
  | Effect.broadcast _ (Event.PluginStartedEvent _) _ => true
  | _ => false

/-- Recognises a `ShutdownRequest` broadcast. -/
def isShutdownBroadcast : Effect → Bool
  | Effect.broadcast _ Event.ShutdownRequest _ => true
  | _ => false

/-- `start()` was invoked strictly before any `PluginStartedEvent` broadcast
in the trace: a `startCall` occurs among the effects preceding the first such
broadcast. -/
def startBeforeStartedBroadcast (tr : List Effect) : Bool :=
  (tr.takeWhile (fun e => !isStartedBroadcast e)).contains Effect.startCall

/-! Concrete sample states used by witnesses and counterexamples. -/

/-- Boot kwargs holding only the required log-routing handle. -/
def sampleKw : List (String × Nat) := [("log_queue", 3)]

/-- A populated context on bus handle 7. -/
def sampleContext : PluginContext :=
  { event_bus := 7, boot_kwargs := some sampleKw, args := some 1, trinity_config := some 2 }

/-- An in-process plugin with its context injected. -/
def sampleBase : BasePlugin := { context := some sampleContext }

/-- An isolated plugin with its context injected. -/
def sampleIso : BaseIsolatedPlugin := { toBasePlugin := sampleBase }

/-- C2: for every plugin, accessing `event_bus` before `set_context` raises
`EventBusNotReady`, and after `set_context c` it returns `c`'s bus handle. -/
theorem C2_event_bus_not_ready_then_ok (p : BasePlugin) (c : PluginContext)
    (h : p.context = none) :
    (∃ msg, p.event_bus = Except.error (PyError.EventBusNotReady msg)) ∧
    (p.set_context c).event_bus = Except.ok c.event_bus := by
  constructor
  · exact ⟨"Tried accessing event_bus before ready was called",
      by simp [BasePlugin.event_bus, h]⟩
  · simp [BasePlugin.event_bus, BasePlugin.set_context]

/-- C2 witness: a fresh plugin at the concrete context `sampleContext`. -/
theorem C2_event_bus_not_ready_then_ok_witness :
    (∃ msg, BasePlugin.event_bus {} = Except.error (PyError.EventBusNotReady msg)) ∧
    (BasePlugin.set_context {} sampleContext).event_bus = Except.ok sampleContext.event_bus :=
  C2_event_bus_not_ready_then_ok {} sampleContext rfl

/-- C5: `shutdown_host` broadcasts exactly one `ShutdownRequest`, filtered to
the main endpoint, for every context (hence regardless of the invoking
plugin), changes nothing and returns nothing else. -/
theorem C5_shutdown_host_single_filtered (c : PluginContext) :
    c.shutdown_host =
      (c, [Effect.broadcast c.event_bus Event.ShutdownRequest (some MAIN_EVENTBUS_ENDPOINT)]) ∧
    ((c.shutdown_host).2.filter isShutdownBroadcast).length = 1 := by
  constructor
  · rfl
  · simp [PluginContext.shutdown_host, isShutdownBroadcast]

/-- C7: a second `set_context` overwrites the first completely: the plugin
state equals that of a single `set_context` with the second context, and
`event_bus` answers with the second context's bus. -/
theorem C7_set_context_overwrites (p : BasePlugin) (a b : PluginContext) :
    (p.set_context a).set_context b = p.set_context b ∧
    ((p.set_context a).set_context b).event_bus = Except.ok b.event_bus := by
  constructor
  · rfl
  · rfl

/-- C10: `shutdown_host` depends only on the context's bus handle — two
contexts sharing a bus handle produce the same effects — and it leaves all
four fields of the context unchanged. -/
theorem C10_shutdown_host_frame (c d : PluginContext)
    (h : c.event_bus = d.event_bus) :
    (c.shutdown_host).2 = (d.shutdown_host).2 ∧
    (c.shutdown_host).1 = c ∧
    (c.shutdown_host).1.event_bus = c.event_bus ∧
    (c.shutdown_host).1.boot_kwargs = c.boot_kwargs ∧
    (c.shutdown_host).1.args = c.args ∧
    (c.shutdown_host).1.trinity_config = c.trinity_config := by
  refine ⟨?_, rfl, rfl, rfl, rfl, rfl⟩
  simp [PluginContext.shutdown_host, h]

/-- C10 witness: `sampleContext` and a bare context share bus handle 7 but
differ in every other field. -/
theorem C10_shutdown_host_frame_witness :
    (sampleContext.shutdown_host).2 = ((PluginContext.init 7).shutdown_host).2 ∧
    (sampleContext.shutdown_host).1 = sampleContext ∧
    (sampleContext.shutdown_host).1.event_bus = sampleContext.event_bus ∧
    (sampleContext.shutdown_host).1.boot_kwargs = sampleContext.boot_kwargs ∧
    (sampleContext.shutdown_host).1.args = sampleContext.args ∧
    (sampleContext.shutdown_host).1.trinity_config = sampleContext.trinity_config :=
  C10_shutdown_host_frame sampleContext (PluginContext.init 7) rfl

/-- C1 counterexample: for the concrete isolated plugin `sampleIso`, the
subprocess entry point broadcasts `PluginStartedEvent` *before* invoking
`start()` — no `startCall` precedes the broadcast in its trace — refuting the
claim that for isolated plugins the broadcast happens only after `start()`
has been invoked. -/
theorem C1_counterexample :
    sampleIso._prepare_start "IsoT" = Except.ok
      [Effect.setupQueueLogging 3 logging_INFO, Effect.connectNoWait 7,
        Effect.broadcast 7 (Event.PluginStartedEvent "IsoT") none, Effect.startCall] ∧
    startBeforeStartedBroadcast
      [Effect.setupQueueLogging 3 logging_INFO, Effect.connectNoWait 7,
        Effect.broadcast 7 (Event.PluginStartedEvent "IsoT") none, Effect.startCall] = false :=
  ⟨rfl, rfl⟩

/-- C1 (amended): every completed boot emits exactly one `PluginStartedEvent`
broadcast carrying the plugin's identity; for in-process plugins the broadcast
happens after `start()` has been invoked, while for isolated plugins the
spawned subprocess's entry point broadcasts it *before* invoking `start()`. -/
theorem C1_one_started_event_per_boot (p : BasePlugin) (c : PluginContext) (ty nm : String)
    (q : BaseIsolatedPlugin) (d : PluginContext) (kw : List (String × Nat)) (lq : Nat)
    (hp : p.context = some c)
    (hq : q.toBasePlugin.context = some d)
    (hkw : d.boot_kwargs = some kw)
    (hlq : dictGet kw "log_queue" = some lq) :
    ((p.boot ty nm).2.2 = none ∧
      (p.boot ty nm).2.1.filter isStartedBroadcast =
        [Effect.broadcast c.event_bus (Event.PluginStartedEvent ty) none] ∧
      startBeforeStartedBroadcast (p.boot ty nm).2.1 = true) ∧
    (q._prepare_start ty = Except.ok
        [Effect.setupQueueLogging lq ((dictGet kw "log_level").getD logging_INFO),
          Effect.connectNoWait d.event_bus,
          Effect.broadcast d.event_bus (Event.PluginStartedEvent ty) none,
          Effect.startCall] ∧
      ([Effect.setupQueueLogging lq ((dictGet kw "log_level").getD logging_INFO),
          Effect.connectNoWait d.event_bus,
          Effect.broadcast d.event_bus (Event.PluginStartedEvent ty) none,
          Effect.startCall].filter isStartedBroadcast) =
        [Effect.broadcast d.event_bus (Event.PluginStartedEvent ty) none] ∧
      startBeforeStartedBroadcast
        [Effect.setupQueueLogging lq ((dictGet kw "log_level").getD logging_INFO),
          Effect.connectNoWait d.event_bus,
          Effect.broadcast d.event_bus (Event.PluginStartedEvent ty) none,
          Effect.startCall] = false) := by
  refine ⟨⟨?_, ?_, ?_⟩, ?_, ?_, ?_⟩
  · simp [BasePlugin.boot, BasePlugin.start, BasePlugin.event_bus, hp]
  · simp [BasePlugin.boot, BasePlugin.start, BasePlugin.event_bus, hp, isStartedBroadcast]
  · simp [BasePlugin.boot, BasePlugin.start, BasePlugin.event_bus, hp,
      startBeforeStartedBroadcast, isStartedBroadcast]
  · simp [BaseIsolatedPlugin._prepare_start, hq, hkw, hlq, BasePlugin.event_bus]
  · simp [isStartedBroadcast]
  · simp [startBeforeStartedBroadcast, isStartedBroadcast]

/-- C1 witness: the amended theorem instantiated at `sampleBase` (in-process)
and `sampleIso` (isolated), both on `sampleContext`. -/
theorem C1_one_started_event_per_boot_witness :
    ((sampleBase.boot "T" "N").2.2 = none ∧
      (sampleBase.boot "T" "N").2.1.filter isStartedBroadcast =
        [Effect.broadcast sampleContext.event_bus (Event.PluginStartedEvent "T") none] ∧
      startBeforeStartedBroadcast (sampleBase.boot "T" "N").2.1 = true) ∧
    (sampleIso._prepare_start "T" = Except.ok
        [Effect.setupQueueLogging 3 ((dictGet sampleKw "log_level").getD logging_INFO),
          Effect.connectNoWait sampleContext.event_bus,
          Effect.broadcast sampleContext.event_bus (Event.PluginStartedEvent "T") none,
          Effect.startCall] ∧
      ([Effect.setupQueueLogging 3 ((dictGet sampleKw "log_level").getD logging_INFO),
          Effect.connectNoWait sampleContext.event_bus,
          Effect.broadcast sampleContext.event_bus (Event.PluginStartedEvent "T") none,
          Effect.startCall].filter isStartedBroadcast) =
        [Effect.broadcast sampleContext.event_bus (Event.PluginStartedEvent "T") none] ∧
      startBeforeStartedBroadcast
        [Effect.setupQueueLogging 3 ((dictGet sampleKw "log_level").getD logging_INFO),
          Effect.connectNoWait sampleContext.event_bus,
          Effect.broadcast sampleContext.event_bus (Event.PluginStartedEvent "T") none,
          Effect.startCall] = false) :=
  C1_one_started_event_per_boot sampleBase sampleContext "T" "N" sampleIso sampleContext
    sampleKw 3 rfl rfl rfl rfl

/-- C3: on an isolated plugin with its context injected, `stop()` first sends
the bus a stop signal for the plugin's connection and then runs the graceful
kill sequence (interrupt, bounded grace period, forced termination only if the
process has not exited); a process that ignores the interrupt is logged as a
fault, and `stop()` returns without raising in either case. -/
theorem C3_stop_bus_then_graceful_kill (p : BaseIsolatedPlugin) (c : PluginContext) (e : Bool)
    (h : p.toBasePlugin.context = some c) :
    p.stop e = Except.ok (p, Effect.busStop c.event_bus :: kill_process_gracefully e) ∧
    (kill_process_gracefully e).head? = some Effect.sigint ∧
    (e = false → kill_process_gracefully e =
      [Effect.sigint, Effect.waitGracePeriod, Effect.sigterm,
        Effect.logError "process did not exit gracefully; forced termination"]) ∧
    (e = true → Effect.sigterm ∉ kill_process_gracefully e) := by
  refine ⟨by simp [BaseIsolatedPlugin.stop, h], ?_, ?_, ?_⟩ <;> cases e <;> decide

/-- C3 witness: `sampleIso` with a process that ignores the interrupt. -/
theorem C3_stop_bus_then_graceful_kill_witness :
    sampleIso.stop false =
      Except.ok (sampleIso,
        Effect.busStop sampleContext.event_bus :: kill_process_gracefully false) ∧
    (kill_process_gracefully false).head? = some Effect.sigint ∧
    (false = false → kill_process_gracefully false =
      [Effect.sigint, Effect.waitGracePeriod, Effect.sigterm,
        Effect.logError "process did not exit gracefully; forced termination"]) ∧
    (false = true → Effect.sigterm ∉ kill_process_gracefully false) :=
  C3_stop_bus_then_graceful_kill sampleIso sampleContext false rfl

/-- C4 counterexample: boot the concrete plugin `sampleBase`, then call
`stop()` (sync or async variant): the `running` flag is still `true`
afterwards, refuting the claim that after `stop()` completes the plugin is no
longer in the Running state. -/
theorem C4_counterexample :
    (sampleBase.boot "T" "N").1.running = true ∧
    (BaseSyncStopPlugin.stop (sampleBase.boot "T" "N").1).1.running = true ∧
    (BaseAsyncStopPlugin.stop (sampleBase.boot "T" "N").1).1.running = true :=
  ⟨rfl, rfl, rfl⟩

/-- C4 (amended): `boot()` does set the `running` flag, so querying it
immediately after `boot()` yields `true` (for in-process and isolated
variants alike); but no `stop()` implementation touches the lifecycle state —
the sync and async stop bodies return the plugin unchanged, and the isolated
`stop()` only emits its bus-stop and kill effects — so after `stop()` the
plugin still reports Running. -/
theorem C4_boot_running_stop_keeps_flag (p : BasePlugin) (q : BaseIsolatedPlugin)
    (ty nm : String) (pid : Nat) (e : Bool) (c : PluginContext)
    (hq : q.toBasePlugin.context = some c) :
    (p.boot ty nm).1.running = true ∧
    (q.boot nm pid).1.toBasePlugin.running = true ∧
    (BaseSyncStopPlugin.stop p).1 = p ∧
    (BaseAsyncStopPlugin.stop p).1 = p ∧
    q.stop e = Except.ok (q, Effect.busStop c.event_bus :: kill_process_gracefully e) := by
  refine ⟨?_, ?_, rfl, rfl, ?_⟩
  · cases hc : p.context <;>
      simp [BasePlugin.boot, BasePlugin.start, BasePlugin.event_bus, hc]
  · simp [BaseIsolatedPlugin.boot]
  · simp [BaseIsolatedPlugin.stop, hq]

/-- C4 witness: the amended theorem at `sampleBase` and `sampleIso`. -/
theorem C4_boot_running_stop_keeps_flag_witness :
    (sampleBase.boot "T" "N").1.running = true ∧
    (sampleIso.boot "N" 5).1.toBasePlugin.running = true ∧
    (BaseSyncStopPlugin.stop sampleBase).1 = sampleBase ∧
    (BaseAsyncStopPlugin.stop sampleBase).1 = sampleBase ∧
    sampleIso.stop true =
      Except.ok (sampleIso,
        Effect.busStop sampleContext.event_bus :: kill_process_gracefully true) :=
  C4_boot_running_stop_keeps_flag sampleBase sampleIso "T" "N" 5 true sampleContext rfl

/-- C6: `BaseIsolatedPlugin.boot` only spawns the subprocess, stores its
handle and logs — it performs none of the entry point's work and never waits
on the process — while the spawned entry point `_prepare_start` performs, in
order: configure queue logging at the provided level, connect the bus without
waiting, broadcast `PluginStartedEvent`, call `start()`. -/
theorem C6_isolated_boot_spawns_entry_order (q : BaseIsolatedPlugin) (ty nm : String)
    (pid : Nat) (c : PluginContext) (kw : List (String × Nat)) (lq : Nat)
    (hq : q.toBasePlugin.context = some c)
    (hkw : c.boot_kwargs = some kw)
    (hlq : dictGet kw "log_queue" = some lq) :
    (q.boot nm pid).2 = [Effect.spawnProcess, Effect.logInfo ("Plugin started: " ++ nm)] ∧
    Effect.waitForProcess ∉ (q.boot nm pid).2 ∧
    (q.boot nm pid).1._process = some pid ∧
    q._prepare_start ty = Except.ok
      [Effect.setupQueueLogging lq ((dictGet kw "log_level").getD logging_INFO),
        Effect.connectNoWait c.event_bus,
        Effect.broadcast c.event_bus (Event.PluginStartedEvent ty) none,
        Effect.startCall] := by
  refine ⟨rfl, ?_, rfl, ?_⟩
  · simp [BaseIsolatedPlugin.boot]
  · simp [BaseIsolatedPlugin._prepare_start, hq, hkw, hlq, BasePlugin.event_bus]

/-- C6 witness: `sampleIso` booting with process handle 5. -/
theorem C6_isolated_boot_spawns_entry_order_witness :
    (sampleIso.boot "N" 5).2 =
      [Effect.spawnProcess, Effect.logInfo ("Plugin started: " ++ "N")] ∧
    Effect.waitForProcess ∉ (sampleIso.boot "N" 5).2 ∧
    (sampleIso.boot "N" 5).1._process = some 5 ∧
    sampleIso._prepare_start "T" = Except.ok
      [Effect.setupQueueLogging 3 ((dictGet sampleKw "log_level").getD logging_INFO),
        Effect.connectNoWait sampleContext.event_bus,
        Effect.broadcast sampleContext.event_bus (Event.PluginStartedEvent "T") none,
        Effect.startCall] :=
  C6_isolated_boot_spawns_entry_order sampleIso "T" "N" 5 sampleContext sampleKw 3 rfl rfl rfl

/-- C8: in the subprocess entry point, the boot-kwargs key `log_queue` is
required — its absence makes `_prepare_start` fail with `KeyError` — while
`log_level` is optional and defaults to Python's `logging.INFO` (numeric
value 20) when absent. -/
theorem C8_log_queue_required_log_level_optional (q : BaseIsolatedPlugin) (ty : String)
    (c : PluginContext) (kw : List (String × Nat)) (lq : Nat)
    (hq : q.toBasePlugin.context = some c)
    (hkw : c.boot_kwargs = some kw) :
    (dictGet kw "log_queue" = none →
      q._prepare_start ty = Except.error (PyError.KeyError "log_queue")) ∧
    (dictGet kw "log_queue" = some lq → dictGet kw "log_level" = none →
      q._prepare_start ty = Except.ok
        [Effect.setupQueueLogging lq logging_INFO,
          Effect.connectNoWait c.event_bus,
          Effect.broadcast c.event_bus (Event.PluginStartedEvent ty) none,
          Effect.startCall]) ∧
    logging_INFO = 20 := by
  refine ⟨?_, ?_, rfl⟩
  · intro hnone
    simp [BaseIsolatedPlugin._prepare_start, hq, hkw, hnone]
  · intro hsome hlvl
    simp [BaseIsolatedPlugin._prepare_start, hq, hkw, hsome, hlvl, BasePlugin.event_bus]

/-- C8 witness: `sampleIso`, whose boot kwargs hold `log_queue` but not
`log_level`. -/
theorem C8_log_queue_required_log_level_optional_witness :
    (dictGet sampleKw "log_queue" = none →
      sampleIso._prepare_start "T" = Except.error (PyError.KeyError "log_queue")) ∧
    (dictGet sampleKw "log_queue" = some 3 → dictGet sampleKw "log_level" = none →
      sampleIso._prepare_start "T" = Except.ok
        [Effect.setupQueueLogging 3 logging_INFO,
          Effect.connectNoWait sampleContext.event_bus,
          Effect.broadcast sampleContext.event_bus (Event.PluginStartedEvent "T") none,
          Effect.startCall]) ∧
    logging_INFO = 20 :=
  C8_log_queue_required_log_level_optional sampleIso "T" sampleContext sampleKw 3 rfl rfl

/-- C9: calling `boot()` on an in-process plugin whose context was never
injected raises `EventBusNotReady` at the broadcast step, but only after
`running` has been set to `true` and `start()` has been invoked; neither
state change is rolled back and no `PluginStartedEvent` is broadcast. -/
theorem C9_boot_before_set_context_not_atomic (p : BasePlugin) (ty nm : String)
    (h : p.context = none) :
    p.boot ty nm = ({ context := none, running := true }, [Effect.startCall],
      some (PyError.EventBusNotReady
        "Tried accessing event_bus before ready was called")) ∧
    (p.boot ty nm).1.running = true ∧
    Effect.startCall ∈ (p.boot ty nm).2.1 ∧
    (p.boot ty nm).2.1.filter isStartedBroadcast = [] := by
  obtain ⟨ctx, r⟩ := p
  simp only at h
  subst h
  refine ⟨rfl, rfl, ?_, rfl⟩
  simp [BasePlugin.boot, BasePlugin.start, BasePlugin.event_bus]

/-- C9 witness: a freshly constructed plugin (no context). -/
theorem C9_boot_before_set_context_not_atomic_witness :
    BasePlugin.boot {} "T" "N" = ({ context := none, running := true }, [Effect.startCall],
      some (PyError.EventBusNotReady
        "Tried accessing event_bus before ready was called")) ∧
    (BasePlugin.boot {} "T" "N").1.running = true ∧
    Effect.startCall ∈ (BasePlugin.boot {} "T" "N").2.1 ∧
    (BasePlugin.boot {} "T" "N").2.1.filter isStartedBroadcast = [] :=
  C9_boot_before_set_context_not_atomic {} "T" "N" rfl
